import Mathlib

/-!
Shallow embedding of the strix-lite agent control loop
(`src/strix/agents/base_agent.py`) and the state record it drives.

The `AgentState` class itself (`strix/agents/state.py`) is not part of the
source sample; its mutators and queries are modelled from the spec (§3, §4.1)
and are marked `Modelled from the spec:` in their doc comments.  Everything in
the `BaseAgent` namespace is translated directly from `base_agent.py`.

External collaborators (model backend, tool dispatcher, sandbox provisioner,
telemetry) are modelled as environment inputs: each loop pass consumes a
`PassInput` describing what the externals did during that pass.  Telemetry is
purely observational (spec §2) and is not modelled, except that the controller
records an `Event` trace marking the observable actions the claims count
(model-backend invocations, `set_completed` calls, warning injections).
-/

namespace Strix

/-- Lifecycle status vocabulary of the state record (spec §3).  The
LLM-failure waiting flavor is tracked by the separate `llm_failed` flag,
matching `base_agent.py` which tests `self.state.llm_failed` independently
of the waiting status. -/
inductive Status
  | Running
  | WaitingForInput
  | Completed
  | Errored
deriving DecidableEq, Repr

/-- One role-tagged conversation turn. -/
structure Message where
  role : String
  content : String
deriving DecidableEq, Repr

/-- A tool invocation is opaque to the controller; only its identity matters. -/
abbrev Action := String

/-- Structured outcome payload: `{"success": bool}` plus an optional
`"error"` entry, as built at the `set_completed` call sites of
`base_agent.py`. -/
structure FinalResult where
  success : Bool
  error : Option String := none
deriving DecidableEq, Repr

/-- Opaque sandbox-provision result, the dictionary returned by
`runtime.create_sandbox` (spec §6): `workspace_id`, `auth_token`, and an
optional `agent_id` entry. -/
structure SandboxInfo where
  workspace_id : String
  auth_token : String
  agent_id : Option String := none
deriving DecidableEq, Repr

/-- Modelled from the spec: the mutable lifecycle record `AgentState`
(spec §3).  The class lives in `strix/agents/state.py`, which is absent from
the source sample; fields follow the spec field list.  The waiting deadline is
not modelled: whether the deadline has elapsed is a time-dependent query and
is supplied by the environment (`PassInput.timeoutElapsed`). -/
structure AgentState where
  agent_name : String := ""
  task : String := ""
  messages : List Message := []
  iteration : Nat := 0
  max_iterations : Nat := 300
  max_iterations_warning_sent : Bool := false
  status : Status := Status.Running
  llm_failed : Bool := false
  final_result : Option FinalResult := none
  errors : List String := []
  actions : List Action := []
  sandbox_id : Option String := none
  sandbox_token : Option String := none
  sandbox_info : Option SandboxInfo := none
deriving DecidableEq, Repr

/-- Modelled from the spec: `add_message(role, content)` appends, side-effect
only (spec §4.1). -/
def AgentState.add_message (s : AgentState) (role content : String) : AgentState :=
  { s with messages := s.messages ++ [{ role := role, content := content }] }

/-- Modelled from the spec: `add_error(text)` appends, side-effect only
(spec §4.1). -/
def AgentState.add_error (s : AgentState) (text : String) : AgentState :=
  { s with errors := s.errors ++ [text] }

/-- Modelled from the spec: `add_action(invocation)` appends, side-effect only
(spec §4.1). -/
def AgentState.add_action (s : AgentState) (invocation : Action) : AgentState :=
  { s with actions := s.actions ++ [invocation] }

/-- Modelled from the spec: `increment_iteration()` advances the counter,
no upper clamp (spec §4.1). -/
def AgentState.increment_iteration (s : AgentState) : AgentState :=
  { s with iteration := s.iteration + 1 }

/-- Modelled from the spec: `is_waiting_for_input()` (spec §4.1). -/
def AgentState.is_waiting_for_input (s : AgentState) : Bool :=
  decide (s.status = Status.WaitingForInput)

/-- Modelled from the spec: `should_stop()` is true when status indicates a
just-reached stopping condition not yet converted to `WaitingForInput`
(spec §4.1), i.e. a terminal status. -/
def AgentState.should_stop (s : AgentState) : Bool :=
  decide (s.status = Status.Completed ∨ s.status = Status.Errored)

/-- Near-limit threshold.  Modelled from the spec: a fixed policy value,
"e.g. 10% of budget or a fixed small count" (spec §4.1); 10% of the default
300-iteration budget. -/
def nearLimitThreshold : Nat := 30

/-- Modelled from the spec: `is_approaching_max_iterations()` is true when the
remaining iterations fall under the fixed near-limit threshold (spec §4.1).
Computed over `Int` to match Python integer subtraction. -/
def AgentState.is_approaching_max_iterations (s : AgentState) : Bool :=
  decide ((s.max_iterations : Int) - (s.iteration : Int) ≤ (nearLimitThreshold : Int))

/-- Modelled from the spec: `enter_waiting_state(llm_failed)` sets status to
`WaitingForInput` (or the `LLMFailed` flavor, here the `llm_failed` flag) and
records the waiting deadline (deadline not modelled, see `AgentState`)
(spec §4.1). -/
def AgentState.enter_waiting_state (s : AgentState) (llm_failed : Bool := false) : AgentState :=
  { s with status := Status.WaitingForInput, llm_failed := llm_failed }

/-- Modelled from the spec: `resume_from_waiting()` clears waiting status back
to `Running` and clears the deadline (spec §4.1); clearing the LLM-failure
flavor clears the `llm_failed` flag. -/
def AgentState.resume_from_waiting (s : AgentState) : AgentState :=
  { s with status := Status.Running, llm_failed := false }

/-- Modelled from the spec: `set_completed(result)` sets `final_result` and
status `Completed` (spec §4.1). -/
def AgentState.set_completed (s : AgentState) (result : FinalResult) : AgentState :=
  { s with final_result := some result, status := Status.Completed }

/-- Modelled from the spec: `get_conversation_history()` returns a stable
snapshot of the messages appended so far (spec §4.1). -/
def AgentState.get_conversation_history (s : AgentState) : List Message :=
  s.messages

/-! ## The controller (`BaseAgent`, from `src/strix/agents/base_agent.py`) -/

/-- The controller object: the `BaseAgent` instance attributes read by the
loop (`__init__`). -/
structure Agent where
  local_sources : List String
  non_interactive : Bool
  max_iterations : Nat
  state : AgentState
deriving DecidableEq, Repr

/-- Opaque model-backend configuration (external collaborator). -/
structure LLMConfig where
  model : String := "default"
deriving DecidableEq, Repr

/-- Recognized construction-time configuration options (spec §6); `none` for
an option models absence of the key in the config dictionary.  `BaseAgent`
has `default_llm_config = None`, so `llm_config := none` also covers the
class-attribute fallback of `config.get("llm_config", self.default_llm_config)`. -/
structure AgentConfig where
  local_sources : List String := []
  non_interactive : Bool := false
  max_iterations : Option Nat := none
  llm_config : Option LLMConfig := none
  state : Option AgentState := none

/-- `BaseAgent.max_iterations` class attribute default. -/
def baseAgentMaxIterations : Nat := 300

/-- `BaseAgent.__init__`: reads the config, overrides the class-level
`max_iterations` when the key is present, fails when no `llm_config` is
available, and either adopts the supplied `state` record unchanged or creates
a fresh one carrying the controller's `max_iterations`.  Telemetry
registration is observational and not modelled. -/
def BaseAgent_init (agent_name : String) (config : AgentConfig) : Except String Agent :=
  let max_iterations := config.max_iterations.getD baseAgentMaxIterations
  match config.llm_config with
  | none => Except.error "llm_config is required but not provided"
  | some _ =>
    let state :=
      match config.state with
      | some s => s
      | none => { agent_name := agent_name, max_iterations := max_iterations }
    Except.ok
      { local_sources := config.local_sources
        non_interactive := config.non_interactive
        max_iterations := max_iterations
        state := state }

/-- What the model backend did when `self.llm.generate` was awaited during one
iteration: a structured response (`content` is `None` or a string, plus the
`tool_invocations` list, empty when the attribute is absent or falsy), the
distinguished `LLMRequestFailedError`, or a generic
RuntimeError/ValueError/TypeError raised during the call. -/
inductive GenOutcome
  | ok (content : Option String) (tool_invocations : List Action)
  | llmFail (msg : String)
  | iterErr (msg : String)
deriving DecidableEq, Repr

/-- What the awaited `process_tool_invocations` task did: completed with the
finish flag and the tool-result messages it appended to the history snapshot,
was cooperatively cancelled, or raised a generic
RuntimeError/ValueError/TypeError. -/
inductive DispatchOutcome
  | done (shouldFinish : Bool) (toolResults : List Message)
  | cancelled
  | errored (msg : String)
deriving DecidableEq, Repr

/-- The exception classes intercepted by `agent_loop`'s `try` block. -/
inductive StepExc
  | cancelledError
  | llmRequestFailed (msg : String)
  | stdError (msg : String)
deriving DecidableEq, Repr

/-- Observable controller actions counted by the claims: model-backend
invocations, `set_completed` calls, and the two warning injections. -/
inductive Event
  | genCall
  | setCompletedEv (result : FinalResult)
  | nearLimitWarningEv
  | criticalWarningEv
deriving DecidableEq, Repr

/-- The environment of one pass of the `while True` loop: whether the waiting
deadline has elapsed (consulted only by the waiting branches), and what the
externals did (consulted only when the pass reaches `_process_iteration`). -/
structure PassInput where
  timeoutElapsed : Bool := false
  gen : GenOutcome := GenOutcome.ok none []
  disp : DispatchOutcome := DispatchOutcome.done false []
deriving Repr

/-- How one pass of the loop body ends: fall through to the next pass
(`continue`), `return` a value (`none` models the empty dict returned by
`final_result or ` when no result was set), or let an exception propagate
out of `agent_loop`. -/
inductive PassOutcome
  | next
  | ret (value : Option FinalResult)
  | raised (e : StepExc)
deriving DecidableEq, Repr

/-- Corrective message injected on an empty model response
(`_process_iteration`). -/
def correctiveText : String :=
  "You MUST NOT respond with empty messages. If you currently have nothing to do or say, use an appropriate tool instead:\n- Use finish_actions.finish_scan if the scan is complete"

/-- The near-limit urgency warning f-string (`agent_loop`). -/
def urgentWarningText (iteration max_iterations : Nat) (remaining : Int) : String :=
  "URGENT: You are approaching the maximum iteration limit. Current: " ++
    toString iteration ++ "/" ++ toString max_iterations ++ " (" ++
    toString remaining ++ " iterations remaining). Please prioritize completing your required task(s) and calling the finish_scan tool as soon as possible."

/-- The exact `max_iterations - 3` critical warning (`agent_loop`). -/
def criticalWarningText : String :=
  "CRITICAL: You have only 3 iterations left! Your next message MUST be the tool call to finish_scan. No other actions should be taken except finishing your work immediately."

/-- The error-log record for a cancelled tool batch (`_execute_actions`). -/
def cancelledErrorText : String := "Tool execution cancelled by user"

/-- The error-log record of `_handle_iteration_error`
(f-string with the current iteration). -/
def iterationErrorText (iteration : Nat) (msg : String) : String :=
  "Error in iteration " ++ toString iteration ++ ": " ++ msg

/-- Which notification `_enter_waiting_state` emits; the call sites of
`base_agent.py` set at most one of its three boolean flags, and the `if`
chain in `_enter_waiting_state` gives them exactly this priority. -/
inductive NoticeKind
  | taskCompleted
  | errorOccurred
  | wasCancelled
  | paused
deriving DecidableEq, Repr

/-- `BaseAgent._enter_waiting_state`: enter waiting, then append the
status-appropriate assistant notification (tracer updates not modelled). -/
def enter_waiting_with_notice (s : AgentState) (k : NoticeKind) : AgentState :=
  let s := s.enter_waiting_state
  match k with
  | NoticeKind.taskCompleted =>
    s.add_message "assistant"
      "Task completed. I\x27m now waiting for follow-up instructions or new tasks."
  | NoticeKind.errorOccurred =>
    s.add_message "assistant" "An error occurred. I\x27m now waiting for new instructions."
  | NoticeKind.wasCancelled =>
    s.add_message "assistant" "Execution was cancelled. I\x27m now waiting for new instructions."
  | NoticeKind.paused =>
    s.add_message "assistant"
      "Execution paused. I\x27m now waiting for new instructions or any updates."

/-- `BaseAgent._wait_for_input`: on an elapsed waiting deadline, resume and
append the timeout notice; otherwise sleep for the polling quantum (a no-op on
the state). -/
def wait_for_input (s : AgentState) (timeoutElapsed : Bool) : AgentState :=
  if timeoutElapsed then
    (s.resume_from_waiting).add_message "assistant"
      "Waiting timeout reached. Resuming execution."
  else s

/-- `BaseAgent._execute_actions`: record each action, snapshot the history,
await the dispatch task; on cancellation append the single cancellation error
and re-raise; on completion replace the stored history wholesale with the
extended snapshot and, when the batch requests finish, mark completed with
success. -/
def execute_actions (s : AgentState) (actions : List Action) (disp : DispatchOutcome) :
    AgentState × List Event × Except StepExc Bool :=
  let s := actions.foldl (fun st act => st.add_action act) s
  let conversation_history := s.get_conversation_history
  match disp with
  | DispatchOutcome.cancelled =>
    (s.add_error cancelledErrorText, [], Except.error StepExc.cancelledError)
  | DispatchOutcome.errored msg =>
    (s, [], Except.error (StepExc.stdError msg))
  | DispatchOutcome.done shouldFinish toolResults =>
    let s := { s with messages := conversation_history ++ toolResults }
    if shouldFinish then
      let s := s.set_completed { success := true }
      (s, [Event.setCompletedEv { success := true }], Except.ok true)
    else
      (s, [], Except.ok false)

/-- Python whitespace as stripped by `str.strip()` (ASCII part). -/
def isPyWhitespace (c : Char) : Bool :=
  c == ' ' || c == '\t' || c == '\n' || c == '\r' || c == '\x0b' || c == '\x0c'

/-- `(response.content or "").strip()` is falsy exactly when every character
of the content is whitespace; `_process_iteration` uses the stripped text only
for that falsiness test. -/
def stripped_isEmpty (s : String) : Bool :=
  s.data.all isPyWhitespace

/-- `BaseAgent._process_iteration`: call the model backend; on a blank
response (`(response.content or "").strip()` falsy) append the corrective user
message and report no finish; otherwise record the assistant turn and, when
the response carries tool invocations, delegate to `execute_actions`. -/
def process_iteration (s : AgentState) (gen : GenOutcome) (disp : DispatchOutcome) :
    AgentState × List Event × Except StepExc Bool :=
  match gen with
  | GenOutcome.llmFail msg =>
    (s, [Event.genCall], Except.error (StepExc.llmRequestFailed msg))
  | GenOutcome.iterErr msg =>
    (s, [Event.genCall], Except.error (StepExc.stdError msg))
  | GenOutcome.ok content tool_invocations =>
    if stripped_isEmpty (content.getD "") then
      (s.add_message "user" correctiveText, [Event.genCall], Except.ok false)
    else
      let s := s.add_message "assistant" (content.getD "")
      let actions := tool_invocations
      if actions.isEmpty then
        (s, [Event.genCall], Except.ok false)
      else
        let r := execute_actions s actions disp
        (r.1, Event.genCall :: r.2.1, r.2.2)

/-- `BaseAgent._handle_iteration_error`: log and record the error with its
iteration context and report the error handled (it returns `True`
unconditionally). -/
def handle_iteration_error (s : AgentState) (msg : String) : AgentState × Bool :=
  (s.add_error (iterationErrorText s.iteration msg), true)

/-- The iteration-warning block of `agent_loop` (run after
`increment_iteration`): the flag-guarded near-limit urgency warning, then the
unguarded exact `max_iterations - 3` critical warning (Python integer
arithmetic, hence `Int`). -/
def warn_stage (s : AgentState) : AgentState × List Event :=
  let r1 :=
    if s.is_approaching_max_iterations && !s.max_iterations_warning_sent then
      let s := { s with max_iterations_warning_sent := true }
      let remaining : Int := (s.max_iterations : Int) - (s.iteration : Int)
      (s.add_message "user" (urgentWarningText s.iteration s.max_iterations remaining),
        [Event.nearLimitWarningEv])
    else (s, [])
  let s := r1.1
  if (s.iteration : Int) = (s.max_iterations : Int) - 3 then
    (s.add_message "user" criticalWarningText, r1.2 ++ [Event.criticalWarningEv])
  else (s, r1.2)

/-- The `try`/`except` block of `agent_loop`: run `_process_iteration` and
route its outcome — finish handling, cancellation, the distinguished
model-backend failure, and the generic error classes (whose terminal branch is
guarded by `_handle_iteration_error`'s return value). -/
def try_stage (non_interactive : Bool) (s : AgentState) (gen : GenOutcome)
    (disp : DispatchOutcome) : AgentState × List Event × PassOutcome :=
  match process_iteration s gen disp with
  | (s, evs, Except.ok shouldFinish) =>
    if shouldFinish then
      if non_interactive then
        let s := s.set_completed { success := true }
        (s, evs ++ [Event.setCompletedEv { success := true }],
          PassOutcome.ret s.final_result)
      else
        (enter_waiting_with_notice s NoticeKind.taskCompleted, evs, PassOutcome.next)
    else
      (s, evs, PassOutcome.next)
  | (s, evs, Except.error StepExc.cancelledError) =>
    if non_interactive then
      (s, evs, PassOutcome.raised StepExc.cancelledError)
    else
      (enter_waiting_with_notice s NoticeKind.wasCancelled, evs, PassOutcome.next)
  | (s, evs, Except.error (StepExc.llmRequestFailed msg)) =>
    let s := s.add_error msg
    if non_interactive then
      let s := s.set_completed { success := false, error := some msg }
      (s, evs ++ [Event.setCompletedEv { success := false, error := some msg }],
        PassOutcome.ret (some { success := false, error := some msg }))
    else
      (s.enter_waiting_state true, evs, PassOutcome.next)
  | (s, evs, Except.error (StepExc.stdError msg)) =>
    let r := handle_iteration_error s msg
    let s := r.1
    if !r.2 then
      if non_interactive then
        let s := s.set_completed { success := false, error := some msg }
        (s, evs ++ [Event.setCompletedEv { success := false, error := some msg }],
          PassOutcome.raised (StepExc.stdError msg))
      else
        (enter_waiting_with_notice s NoticeKind.errorOccurred, evs, PassOutcome.next)
    else
      (s, evs, PassOutcome.next)

/-- One pass of `agent_loop`'s `while True` body, in the source's strict
priority order: waiting branch, stop branch, LLM-failed branch, then
increment, the warning block (`warn_stage`), and the guarded iteration
(`try_stage`). -/
def loop_pass (a : Agent) (inp : PassInput) : Agent × List Event × PassOutcome :=
  let s := a.state
  if s.is_waiting_for_input then
    ({ a with state := wait_for_input s inp.timeoutElapsed }, [], PassOutcome.next)
  else if s.should_stop then
    if a.non_interactive then
      (a, [], PassOutcome.ret s.final_result)
    else
      ({ a with state := enter_waiting_with_notice s NoticeKind.paused }, [],
        PassOutcome.next)
  else if s.llm_failed then
    ({ a with state := wait_for_input s inp.timeoutElapsed }, [], PassOutcome.next)
  else
    let s := s.increment_iteration
    let w := warn_stage s
    let r := try_stage a.non_interactive w.1 inp.gen inp.disp
    ({ a with state := r.1 }, w.2 ++ r.2.1, r.2.2)

/-- How a finite sequence of loop passes ends. -/
inductive RunResult
  | outOfFuel
  | returned (value : Option FinalResult)
  | raised (e : StepExc)
deriving DecidableEq, Repr

/-- A run of `agent_loop`: fold `loop_pass` over a finite sequence of pass
environments, stopping at the first `return` or propagated exception and
concatenating the event traces. -/
def agent_run : Agent → List PassInput → Agent × List Event × RunResult
  | a, [] => (a, [], RunResult.outOfFuel)
  | a, inp :: rest =>
    match loop_pass a inp with
    | (a2, evs, PassOutcome.next) =>
      let r := agent_run a2 rest
      (r.1, evs ++ r.2.1, r.2.2)
    | (a2, evs, PassOutcome.ret v) => (a2, evs, RunResult.returned v)
    | (a2, evs, PassOutcome.raised e) => (a2, evs, RunResult.raised e)

/-- `BaseAgent._initialize_sandbox_and_state`: when the sandbox-mode
environment toggle is off and no `sandbox_id` is present, provision via the
runtime (its result is the environment input `si`) and store the three
handles (plus the `agent_id` echo, an identity update since the stored
`sandbox_info` is the very dictionary just provisioned); then set the task
field only when it is still falsy, and append the task as a user message. -/
def initialize_sandbox_and_state (a : Agent) (sandbox_mode : Bool) (si : SandboxInfo)
    (task : String) : Agent :=
  let s := a.state
  let s :=
    if !sandbox_mode && decide (s.sandbox_id = none) then
      let s := { s with
        sandbox_id := some si.workspace_id
        sandbox_token := some si.auth_token
        sandbox_info := some si }
      if si.agent_id.isSome then
        { s with sandbox_info := s.sandbox_info.map (fun i => { i with agent_id := si.agent_id }) }
      else s
    else s
  let s := if s.task = "" then { s with task := task } else s
  let s := s.add_message "user" task
  { a with state := s }

/-! ## Event-counting predicates and sandbox-handle predicates -/

/-- Recognizer for the model-backend-invocation event. -/
def isGenCallEv : Event → Bool
  | Event.genCall => true
  | _ => false

/-- Recognizer for a `set_completed` event (any payload). -/
def isSetCompletedEv : Event → Bool
  | Event.setCompletedEv _ => true
  | _ => false

/-- Recognizer for the near-limit urgency-warning event. -/
def isNearLimitEv : Event → Bool
  | Event.nearLimitWarningEv => true
  | _ => false

/-- Recognizer for the exact `max_iterations - 3` critical-warning event. -/
def isCriticalEv : Event → Bool
  | Event.criticalWarningEv => true
  | _ => false

/-- All three sandbox handles are set. -/
def handles_all_set (s : AgentState) : Prop :=
  s.sandbox_id.isSome ∧ s.sandbox_token.isSome ∧ s.sandbox_info.isSome

/-- All three sandbox handles are unset. -/
def handles_all_unset (s : AgentState) : Prop :=
  s.sandbox_id = none ∧ s.sandbox_token = none ∧ s.sandbox_info = none

/-- Invariant (c) of spec §3: the handles are either all unset or all set. -/
def handles_consistent (s : AgentState) : Prop :=
  handles_all_set s ∨ handles_all_unset s

instance (s : AgentState) : Decidable (handles_all_set s) := by
  unfold handles_all_set; infer_instance

instance (s : AgentState) : Decidable (handles_all_unset s) := by
  unfold handles_all_unset; infer_instance

instance (s : AgentState) : Decidable (handles_consistent s) := by
  unfold handles_consistent; infer_instance

/-! ## Concrete sample agents and pass environments (for the closed
counterexamples and witnesses) -/

/-- A freshly created state, as built by `__init__` for a new agent. -/
def freshState : AgentState := { agent_name := "TestAgent", task := "t" }

/-- An interactive agent over the fresh state. -/
def interactiveAgent : Agent :=
  { local_sources := [], non_interactive := false, max_iterations := 300,
    state := freshState }

/-- A non-interactive agent over the fresh state. -/
def autonomousAgent : Agent :=
  { local_sources := [], non_interactive := true, max_iterations := 300,
    state := freshState }

/-- A pass where the model responds with one tool invocation and the tool
batch completes signalling finish. -/
def finishInput : PassInput :=
  { gen := GenOutcome.ok (some "finishing now") ["finish_scan"],
    disp := DispatchOutcome.done true [{ role := "tool", content := "scan stored" }] }

/-- A pass where a generic error (RuntimeError class) is raised during the
iteration. -/
def errInput : PassInput := { gen := GenOutcome.iterErr "boom" }

/-- A pass where the model dispatches one tool invocation and the batch is
cooperatively cancelled in flight. -/
def cancelInput : PassInput :=
  { gen := GenOutcome.ok (some "scanning the target") ["run_scan"],
    disp := DispatchOutcome.cancelled }

/-- A pass where the model backend fails with a rate-limit message. -/
def rateLimitInput : PassInput := { gen := GenOutcome.llmFail "rate limited" }

/-- A pass where the model dispatches one tool invocation and the dispatch
task raises a generic (RuntimeError-class) error. -/
def dispatchErrInput : PassInput :=
  { gen := GenOutcome.ok (some "running tools") ["run_scan"],
    disp := DispatchOutcome.errored "tool blew up" }

/-- A pass with a whitespace-only model response (the dispatch outcome is
deliberately a finish signal, to witness that it is never consulted). -/
def blankInput : PassInput :=
  { gen := GenOutcome.ok (some " \n\t ") ["ignored"],
    disp := DispatchOutcome.done true [] }

/-- A provisioning result from the sandbox runtime. -/
def sampleSandbox : SandboxInfo :=
  { workspace_id := "ws-1", auth_token := "tok-1", agent_id := some "agent-1" }

/-- A restored state that already contains the task as its first user message
and already holds sandbox handles. -/
def resumedState : AgentState :=
  { agent_name := "TestAgent", task := "t",
    messages := [{ role := "user", content := "t" }],
    sandbox_id := some "ws-0", sandbox_token := some "tok-0",
    sandbox_info := some { workspace_id := "ws-0", auth_token := "tok-0" } }

/-- An interactive agent restored from `resumedState`. -/
def resumedAgent : Agent :=
  { local_sources := [], non_interactive := false, max_iterations := 300,
    state := resumedState }

/-- A state three iterations short of its own (restored) five-iteration
budget, under a controller whose own attribute still holds the 300 default. -/
def nearEndState : AgentState :=
  { agent_name := "TestAgent", task := "t", max_iterations := 5, iteration := 1 }

/-- A non-interactive agent over `nearEndState`. -/
def nearEndAgent : Agent :=
  { local_sources := [], non_interactive := true, max_iterations := 300,
    state := nearEndState }

/-! ## Helper lemmas: stage characterizations -/

theorem foldl_add_action (s : AgentState) (actions : List Action) :
    actions.foldl (fun st act => st.add_action act) s
      = { s with actions := s.actions ++ actions } := by
  induction actions generalizing s with
  | nil => simp
  | cons a as ih =>
    rw [List.foldl_cons, ih]
    simp [AgentState.add_action]

theorem loop_pass_waiting (a : Agent) (inp : PassInput)
    (h : a.state.is_waiting_for_input = true) :
    loop_pass a inp
      = ({ a with state := wait_for_input a.state inp.timeoutElapsed }, [],
          PassOutcome.next) := by
  simp [loop_pass, h]

theorem loop_pass_stop (a : Agent) (inp : PassInput)
    (h1 : a.state.is_waiting_for_input = false) (h2 : a.state.should_stop = true) :
    loop_pass a inp
      = if a.non_interactive then (a, [], PassOutcome.ret a.state.final_result)
        else ({ a with state := enter_waiting_with_notice a.state NoticeKind.paused },
          [], PassOutcome.next) := by
  cases hni : a.non_interactive <;> simp [loop_pass, h1, h2, hni]

theorem loop_pass_llm_failed (a : Agent) (inp : PassInput)
    (h1 : a.state.is_waiting_for_input = false) (h2 : a.state.should_stop = false)
    (h3 : a.state.llm_failed = true) :
    loop_pass a inp
      = ({ a with state := wait_for_input a.state inp.timeoutElapsed }, [],
          PassOutcome.next) := by
  simp [loop_pass, h1, h2, h3]

theorem loop_pass_main (a : Agent) (inp : PassInput)
    (h1 : a.state.is_waiting_for_input = false) (h2 : a.state.should_stop = false)
    (h3 : a.state.llm_failed = false) :
    loop_pass a inp
      = ({ a with state :=
            (try_stage a.non_interactive (warn_stage a.state.increment_iteration).1
              inp.gen inp.disp).1 },
          (warn_stage a.state.increment_iteration).2 ++
            (try_stage a.non_interactive (warn_stage a.state.increment_iteration).1
              inp.gen inp.disp).2.1,
          (try_stage a.non_interactive (warn_stage a.state.increment_iteration).1
            inp.gen inp.disp).2.2) := by
  simp [loop_pass, h1, h2, h3]

theorem try_stage_llmFail (ni : Bool) (s : AgentState) (msg : String)
    (disp : DispatchOutcome) :
    try_stage ni s (GenOutcome.llmFail msg) disp
      = if ni then
          ((s.add_error msg).set_completed { success := false, error := some msg },
            [Event.genCall, Event.setCompletedEv { success := false, error := some msg }],
            PassOutcome.ret (some { success := false, error := some msg }))
        else
          ((s.add_error msg).enter_waiting_state true, [Event.genCall],
            PassOutcome.next) := by
  cases ni <;>
    simp [try_stage, process_iteration, AgentState.add_error, AgentState.set_completed]

theorem try_stage_iterErr (ni : Bool) (s : AgentState) (msg : String)
    (disp : DispatchOutcome) :
    try_stage ni s (GenOutcome.iterErr msg) disp
      = (s.add_error (iterationErrorText s.iteration msg), [Event.genCall],
          PassOutcome.next) := by
  simp [try_stage, process_iteration, handle_iteration_error]

theorem try_stage_blank (ni : Bool) (s : AgentState) (content : Option String)
    (tools : List Action) (disp : DispatchOutcome)
    (h : stripped_isEmpty (content.getD "") = true) :
    try_stage ni s (GenOutcome.ok content tools) disp
      = (s.add_message "user" correctiveText, [Event.genCall], PassOutcome.next) := by
  simp [try_stage, process_iteration, h]

theorem try_stage_idle (ni : Bool) (s : AgentState) (content : Option String)
    (disp : DispatchOutcome) (h : stripped_isEmpty (content.getD "") = false) :
    try_stage ni s (GenOutcome.ok content []) disp
      = (s.add_message "assistant" (content.getD ""), [Event.genCall],
          PassOutcome.next) := by
  simp [try_stage, process_iteration, h]

theorem try_stage_cancelled (ni : Bool) (s : AgentState) (content : Option String)
    (tools : List Action) (h : stripped_isEmpty (content.getD "") = false)
    (ht : tools ≠ []) :
    try_stage ni s (GenOutcome.ok content tools) DispatchOutcome.cancelled
      = (let s1 := s.add_message "assistant" (content.getD "")
         let s2 := { s1 with actions := s1.actions ++ tools }
         if ni then
           (s2.add_error cancelledErrorText, [Event.genCall],
             PassOutcome.raised StepExc.cancelledError)
         else
           (enter_waiting_with_notice (s2.add_error cancelledErrorText)
              NoticeKind.wasCancelled, [Event.genCall], PassOutcome.next)) := by
  cases ni <;>
    simp [try_stage, process_iteration, execute_actions, foldl_add_action, h, ht,
      AgentState.get_conversation_history]

theorem try_stage_dispatch_done (ni : Bool) (s : AgentState) (content : Option String)
    (tools : List Action) (sf : Bool) (results : List Message)
    (h : stripped_isEmpty (content.getD "") = false) (ht : tools ≠ []) :
    try_stage ni s (GenOutcome.ok content tools) (DispatchOutcome.done sf results)
      = (let s1 := s.add_message "assistant" (content.getD "")
         let s2 := { s1 with actions := s1.actions ++ tools }
         let s3 := { s2 with messages := s2.messages ++ results }
         if sf then
           let s4 := s3.set_completed { success := true }
           if ni then
             (s4.set_completed { success := true },
               [Event.genCall, Event.setCompletedEv { success := true },
                 Event.setCompletedEv { success := true }],
               PassOutcome.ret (some { success := true }))
           else
             (enter_waiting_with_notice s4 NoticeKind.taskCompleted,
               [Event.genCall, Event.setCompletedEv { success := true }],
               PassOutcome.next)
         else (s3, [Event.genCall], PassOutcome.next)) := by
  cases sf <;> cases ni <;>
    simp [try_stage, process_iteration, execute_actions, foldl_add_action, h, ht,
      AgentState.get_conversation_history, AgentState.set_completed]

theorem warn_stage_errors (s : AgentState) : (warn_stage s).1.errors = s.errors := by
  simp only [warn_stage]
  split <;> split <;> simp_all [AgentState.add_message]

theorem warn_stage_status (s : AgentState) : (warn_stage s).1.status = s.status := by
  simp only [warn_stage]
  split <;> split <;> simp_all [AgentState.add_message]

theorem warn_stage_iteration (s : AgentState) :
    (warn_stage s).1.iteration = s.iteration := by
  simp only [warn_stage]
  split <;> split <;> simp_all [AgentState.add_message]

theorem warn_stage_final_result (s : AgentState) :
    (warn_stage s).1.final_result = s.final_result := by
  simp only [warn_stage]
  split <;> split <;> simp_all [AgentState.add_message]

theorem warn_stage_max_iterations (s : AgentState) :
    (warn_stage s).1.max_iterations = s.max_iterations := by
  simp only [warn_stage]
  split <;> split <;> simp_all [AgentState.add_message]

theorem warn_stage_actions (s : AgentState) : (warn_stage s).1.actions = s.actions := by
  simp only [warn_stage]
  split <;> split <;> simp_all [AgentState.add_message]

theorem warn_stage_near_count (s : AgentState) :
    ((warn_stage s).2.countP isNearLimitEv)
        + (if s.max_iterations_warning_sent then 1 else 0)
      = if (warn_stage s).1.max_iterations_warning_sent then 1 else 0 := by
  simp only [warn_stage]
  split <;> split <;>
    simp_all [AgentState.add_message, List.countP_append, List.countP_cons, isNearLimitEv]

theorem warn_stage_warning_sent_mono (s : AgentState)
    (h : s.max_iterations_warning_sent = true) :
    (warn_stage s).1.max_iterations_warning_sent = true := by
  simp only [warn_stage]
  split <;> split <;> simp_all [AgentState.add_message]

theorem warn_stage_critical_count (s : AgentState)
    (h : (s.iteration : Int) = (s.max_iterations : Int) - 3) :
    (warn_stage s).2.countP isCriticalEv = 1 := by
  simp only [warn_stage]
  split <;>
    simp_all [AgentState.add_message, List.countP_append, List.countP_cons,
      isCriticalEv, isNearLimitEv]

theorem warn_stage_no_genCall (s : AgentState) :
    (warn_stage s).2.countP isGenCallEv = 0 := by
  simp only [warn_stage]
  split <;> split <;>
    simp_all [AgentState.add_message, List.countP_append, List.countP_cons,
      isGenCallEv]

theorem try_stage_dispatch_errored (ni : Bool) (s : AgentState)
    (content : Option String) (tools : List Action) (msg : String)
    (h : stripped_isEmpty (content.getD "") = false) (ht : tools ≠ []) :
    try_stage ni s (GenOutcome.ok content tools) (DispatchOutcome.errored msg)
      = (let s1 := s.add_message "assistant" (content.getD "")
         let s2 := { s1 with actions := s1.actions ++ tools }
         (s2.add_error (iterationErrorText s2.iteration msg), [Event.genCall],
           PassOutcome.next)) := by
  simp [try_stage, process_iteration, execute_actions, foldl_add_action, h, ht,
    AgentState.get_conversation_history, handle_iteration_error]

theorem warn_stage_no_setCompleted (s : AgentState) :
    (warn_stage s).2.countP isSetCompletedEv = 0 := by
  simp only [warn_stage]
  split <;> split <;>
    simp_all [AgentState.add_message, List.countP_append, List.countP_cons,
      isSetCompletedEv]

theorem execute_actions_warning_sent (s : AgentState) (actions : List Action)
    (disp : DispatchOutcome) :
    (execute_actions s actions disp).1.max_iterations_warning_sent
      = s.max_iterations_warning_sent := by
  cases disp with
  | cancelled => simp [execute_actions, foldl_add_action, AgentState.add_error]
  | errored msg => simp [execute_actions, foldl_add_action]
  | done sf results =>
    cases sf <;> simp [execute_actions, foldl_add_action, AgentState.set_completed]

theorem execute_actions_no_warn_events (s : AgentState) (actions : List Action)
    (disp : DispatchOutcome) :
    (execute_actions s actions disp).2.1.countP isNearLimitEv = 0
    ∧ (execute_actions s actions disp).2.1.countP isCriticalEv = 0 := by
  cases disp with
  | cancelled => simp [execute_actions, foldl_add_action]
  | errored msg => simp [execute_actions, foldl_add_action]
  | done sf results =>
    cases sf <;>
      simp [execute_actions, foldl_add_action, List.countP_cons, isNearLimitEv,
        isCriticalEv]

theorem process_iteration_warning_sent (s : AgentState) (gen : GenOutcome)
    (disp : DispatchOutcome) :
    (process_iteration s gen disp).1.max_iterations_warning_sent
      = s.max_iterations_warning_sent := by
  cases gen with
  | llmFail msg => simp [process_iteration]
  | iterErr msg => simp [process_iteration]
  | ok content tools =>
    by_cases hb : stripped_isEmpty (content.getD "")
    · simp [process_iteration, hb, AgentState.add_message]
    · by_cases htl : tools.isEmpty <;>
        simp [process_iteration, hb, htl, AgentState.add_message,
          execute_actions_warning_sent]

theorem process_iteration_no_warn_events (s : AgentState) (gen : GenOutcome)
    (disp : DispatchOutcome) :
    (process_iteration s gen disp).2.1.countP isNearLimitEv = 0
    ∧ (process_iteration s gen disp).2.1.countP isCriticalEv = 0 := by
  cases gen with
  | llmFail msg => simp [process_iteration, List.countP_cons, isNearLimitEv, isCriticalEv]
  | iterErr msg => simp [process_iteration, List.countP_cons, isNearLimitEv, isCriticalEv]
  | ok content tools =>
    by_cases hb : stripped_isEmpty (content.getD "")
    · simp [process_iteration, hb, List.countP_cons, isNearLimitEv, isCriticalEv]
    · obtain ⟨e1, e2⟩ :=
        execute_actions_no_warn_events (s.add_message "assistant" (content.getD ""))
          tools disp
      by_cases htl : tools.isEmpty <;>
        simp [process_iteration, hb, htl, List.countP_cons, isNearLimitEv,
          isCriticalEv, e1, e2]

theorem try_stage_warning_sent (ni : Bool) (s : AgentState) (gen : GenOutcome)
    (disp : DispatchOutcome) :
    (try_stage ni s gen disp).1.max_iterations_warning_sent
      = s.max_iterations_warning_sent := by
  have hflag := process_iteration_warning_sent s gen disp
  unfold try_stage
  rcases hp : process_iteration s gen disp with ⟨s2, evs, r⟩
  rw [hp] at hflag
  cases r with
  | ok sf =>
    cases sf <;> cases ni <;>
      simp_all [AgentState.set_completed, enter_waiting_with_notice,
        AgentState.enter_waiting_state, AgentState.add_message]
  | error e =>
    rcases e with _ | msg | msg <;> cases ni <;>
      simp_all [AgentState.set_completed, enter_waiting_with_notice,
        AgentState.enter_waiting_state, AgentState.add_message,
        AgentState.add_error, handle_iteration_error]

theorem try_stage_no_warn_events (ni : Bool) (s : AgentState) (gen : GenOutcome)
    (disp : DispatchOutcome) :
    (try_stage ni s gen disp).2.1.countP isNearLimitEv = 0
    ∧ (try_stage ni s gen disp).2.1.countP isCriticalEv = 0 := by
  have hev := process_iteration_no_warn_events s gen disp
  unfold try_stage
  rcases hp : process_iteration s gen disp with ⟨s2, evs, r⟩
  rw [hp] at hev
  cases r with
  | ok sf =>
    cases sf <;> cases ni <;>
      simp_all [List.countP_append, List.countP_cons, isNearLimitEv, isCriticalEv]
  | error e =>
    rcases e with _ | msg | msg <;> cases ni <;>
      simp_all [List.countP_append, List.countP_cons, isNearLimitEv, isCriticalEv,
        handle_iteration_error]

theorem wait_for_input_warning_sent (s : AgentState) (t : Bool) :
    (wait_for_input s t).max_iterations_warning_sent
      = s.max_iterations_warning_sent := by
  cases t <;>
    simp [wait_for_input, AgentState.resume_from_waiting, AgentState.add_message]

theorem enter_waiting_with_notice_warning_sent (s : AgentState) (k : NoticeKind) :
    (enter_waiting_with_notice s k).max_iterations_warning_sent
      = s.max_iterations_warning_sent := by
  cases k <;>
    simp [enter_waiting_with_notice, AgentState.enter_waiting_state,
      AgentState.add_message]

theorem loop_pass_near_count (a : Agent) (inp : PassInput) :
    (loop_pass a inp).2.1.countP isNearLimitEv
        + (if a.state.max_iterations_warning_sent = true then 1 else 0)
      = if (loop_pass a inp).1.state.max_iterations_warning_sent = true then 1 else 0 := by
  by_cases h1 : a.state.is_waiting_for_input = true
  · rw [loop_pass_waiting a inp h1]
    simp [wait_for_input_warning_sent]
  · replace h1 : a.state.is_waiting_for_input = false := by simpa using h1
    by_cases h2 : a.state.should_stop = true
    · rw [loop_pass_stop a inp h1 h2]
      cases hni : a.non_interactive <;>
        simp [enter_waiting_with_notice_warning_sent]
    · replace h2 : a.state.should_stop = false := by simpa using h2
      by_cases h3 : a.state.llm_failed = true
      · rw [loop_pass_llm_failed a inp h1 h2 h3]
        simp [wait_for_input_warning_sent]
      · replace h3 : a.state.llm_failed = false := by simpa using h3
        rw [loop_pass_main a inp h1 h2 h3]
        have hw := warn_stage_near_count a.state.increment_iteration
        have ht := (try_stage_no_warn_events a.non_interactive
          (warn_stage a.state.increment_iteration).1 inp.gen inp.disp).1
        have hf := try_stage_warning_sent a.non_interactive
          (warn_stage a.state.increment_iteration).1 inp.gen inp.disp
        have hi : a.state.increment_iteration.max_iterations_warning_sent
            = a.state.max_iterations_warning_sent := by
          simp [AgentState.increment_iteration]
        rw [hi] at hw
        simp only [List.countP_append]
        rw [hf]
        split_ifs at hw ⊢ <;> omega

theorem agent_run_near_count (l : List PassInput) (a : Agent) :
    (agent_run a l).2.1.countP isNearLimitEv
        + (if a.state.max_iterations_warning_sent = true then 1 else 0) ≤ 1 := by
  induction l generalizing a with
  | nil => simp [agent_run]; split <;> omega
  | cons inp rest ih =>
    have hp := loop_pass_near_count a inp
    simp only [agent_run]
    rcases hl : loop_pass a inp with ⟨a2, evs, out⟩
    rw [hl] at hp
    dsimp only at hp
    cases out with
    | next =>
      have hr := ih a2
      dsimp only
      simp only [List.countP_append]
      split_ifs at hp hr ⊢ <;> omega
    | ret v =>
      dsimp only
      split_ifs at hp ⊢ <;> omega
    | raised e =>
      dsimp only
      split_ifs at hp ⊢ <;> omega

/-! ## Claims -/

/-- Claim C4: over any sequence of loop passes of one agent, the near-limit
urgency warning message is injected at most once per agent lifetime (guarded
by the one-shot flag, which is never cleared), while the critical warning
message is injected exactly once on every pass whose incremented iteration
count equals exactly `max_iterations - 3`, independent of the one-shot
flag. -/
theorem C4_warning_discipline :
    (∀ (a : Agent) (l : List PassInput),
      (agent_run a l).2.1.countP isNearLimitEv ≤ 1)
    ∧ (∀ (a : Agent) (inp : PassInput),
        a.state.is_waiting_for_input = false →
        a.state.should_stop = false →
        a.state.llm_failed = false →
        (a.state.iteration : Int) + 1 = (a.state.max_iterations : Int) - 3 →
        (loop_pass a inp).2.1.countP isCriticalEv = 1) := by
  constructor
  · intro a l
    have h := agent_run_near_count l a
    split_ifs at h <;> omega
  · intro a inp h1 h2 h3 hiter
    rw [loop_pass_main a inp h1 h2 h3]
    dsimp only
    simp only [List.countP_append]
    have hw := warn_stage_critical_count a.state.increment_iteration
      (by simp only [AgentState.increment_iteration]; push_cast; omega)
    have ht := (try_stage_no_warn_events a.non_interactive
      (warn_stage a.state.increment_iteration).1 inp.gen inp.disp).2
    omega

/-- Witness for C4 at a concrete agent three iterations short of its
five-iteration budget. -/
theorem C4_warning_discipline_witness :
    (agent_run nearEndAgent [finishInput]).2.1.countP isNearLimitEv ≤ 1
    ∧ (loop_pass nearEndAgent errInput).2.1.countP isCriticalEv = 1 :=
  ⟨C4_warning_discipline.1 nearEndAgent [finishInput],
    C4_warning_discipline.2 nearEndAgent errInput (by decide) (by decide)
      (by decide) (by decide)⟩

/-- Claim C5: for every model-backend failure raised during an iteration of a
non-interactive agent, the loop records the error message in the error log,
marks the run completed with failure, and returns
`(success := false, error := message)` within that same loop pass, with no
further model-backend invocation in the whole run. -/
theorem C5_model_failure_terminal (a : Agent) (inp : PassInput)
    (rest : List PassInput) (msg : String)
    (h1 : a.state.is_waiting_for_input = false) (h2 : a.state.should_stop = false)
    (h3 : a.state.llm_failed = false) (hni : a.non_interactive = true)
    (hg : inp.gen = GenOutcome.llmFail msg) :
    (agent_run a (inp :: rest)).2.2
        = RunResult.returned (some { success := false, error := some msg })
    ∧ (agent_run a (inp :: rest)).1.state.errors = a.state.errors ++ [msg]
    ∧ (agent_run a (inp :: rest)).1.state.status = Status.Completed
    ∧ (agent_run a (inp :: rest)).1.state.final_result
        = some { success := false, error := some msg }
    ∧ (agent_run a (inp :: rest)).2.1.countP isGenCallEv = 1 := by
  have hmain := loop_pass_main a inp h1 h2 h3
  rw [hg, try_stage_llmFail, hni] at hmain
  simp only [if_true] at hmain
  simp only [agent_run, hmain]
  refine ⟨trivial, ?_, ?_, ?_, ?_⟩
  · simp [AgentState.set_completed, AgentState.add_error, warn_stage_errors,
      AgentState.increment_iteration]
  · simp [AgentState.set_completed]
  · simp [AgentState.set_completed]
  · simp [List.countP_append, List.countP_cons, isGenCallEv, warn_stage_no_genCall]

/-- Witness for C5: the scenario of spec §8 — the backend fails with
"rate limited"; the run returns the failure immediately and the single
model-backend call of the run is the failed one. -/
theorem C5_model_failure_terminal_witness :
    (agent_run autonomousAgent [rateLimitInput, finishInput]).2.2
        = RunResult.returned (some { success := false, error := some "rate limited" })
    ∧ (agent_run autonomousAgent [rateLimitInput, finishInput]).2.1.countP
        isGenCallEv = 1 := by
  have h := C5_model_failure_terminal autonomousAgent rateLimitInput [finishInput]
    "rate limited" (by decide) (by decide) (by decide) (by decide) rfl
  exact ⟨h.1, h.2.2.2.2⟩

/-- Claim C8: for every model response whose content is empty or
whitespace-only, the single-iteration step appends the corrective user-role
message, records no assistant turn, dispatches no tool batch (the dispatch
outcome is never consulted), reports no finish, while the pass still consumes
the iteration counter; the pass is identical in interactive and
non-interactive modes. -/
theorem C8_empty_response (a : Agent) (inp : PassInput) (content : Option String)
    (tools : List Action)
    (h1 : a.state.is_waiting_for_input = false) (h2 : a.state.should_stop = false)
    (h3 : a.state.llm_failed = false)
    (hg : inp.gen = GenOutcome.ok content tools)
    (hb : stripped_isEmpty (content.getD "") = true) :
    (∀ (s : AgentState) (disp : DispatchOutcome),
      process_iteration s (GenOutcome.ok content tools) disp
        = (s.add_message "user" correctiveText, [Event.genCall], Except.ok false))
    ∧ (loop_pass a inp).2.2 = PassOutcome.next
    ∧ (loop_pass a inp).1.state.iteration = a.state.iteration + 1
    ∧ (loop_pass a inp).1.state.messages
        = (warn_stage a.state.increment_iteration).1.messages
            ++ [{ role := "user", content := correctiveText }]
    ∧ (∀ b : Bool,
        (loop_pass { a with non_interactive := b } inp).1.state
            = (loop_pass a inp).1.state
        ∧ (loop_pass { a with non_interactive := b } inp).2 = (loop_pass a inp).2) := by
  have hmain := loop_pass_main a inp h1 h2 h3
  rw [hg, try_stage_blank _ _ _ _ _ hb] at hmain
  refine ⟨?_, ?_, ?_, ?_, ?_⟩
  · intro s disp
    simp [process_iteration, hb]
  · rw [hmain]
  · rw [hmain]
    simp [AgentState.add_message, warn_stage_iteration, AgentState.increment_iteration]
  · rw [hmain]
    simp [AgentState.add_message]
  · intro b
    have hmain2 := loop_pass_main { a with non_interactive := b } inp h1 h2 h3
    rw [hg, try_stage_blank _ _ _ _ _ hb] at hmain2
    rw [hmain, hmain2]
    exact ⟨rfl, rfl⟩

/-- Witness for C8 at a concrete whitespace-only response. -/
theorem C8_empty_response_witness :
    (loop_pass interactiveAgent blankInput).2.2 = PassOutcome.next
    ∧ (loop_pass interactiveAgent blankInput).1.state.iteration = 1
    ∧ (loop_pass interactiveAgent blankInput).1.state.messages
        = (warn_stage interactiveAgent.state.increment_iteration).1.messages
            ++ [{ role := "user", content := correctiveText }] := by
  have h := C8_empty_response interactiveAgent blankInput (some " \n\t ") ["ignored"]
    (by decide) (by decide) (by decide) rfl (by decide)
  exact ⟨h.2.1, by rw [h.2.2.1]; rfl, h.2.2.2.1⟩

/-- Claim C2 as amended: for every RuntimeError, ValueError, or TypeError
raised during an iteration step — whether at the model-backend call or inside
the awaited tool-dispatch unit, both caught by the same `except` clause of
`agent_loop` — the error is recorded in the error log with its iteration
context, but — because the recovery hook `_handle_iteration_error` reports
every such error as handled — the loop simply continues in both modes: the
run is not marked failed, nothing is raised, and no waiting transition
occurs. -/
theorem C2_recoverable_error (a : Agent) (inp : PassInput) (msg : String)
    (h1 : a.state.is_waiting_for_input = false) (h2 : a.state.should_stop = false)
    (h3 : a.state.llm_failed = false)
    (hsrc : inp.gen = GenOutcome.iterErr msg
      ∨ (∃ (content : Option String) (tools : List Action),
          inp.gen = GenOutcome.ok content tools
          ∧ stripped_isEmpty (content.getD "") = false
          ∧ tools ≠ []
          ∧ inp.disp = DispatchOutcome.errored msg)) :
    (loop_pass a inp).2.2 = PassOutcome.next
    ∧ (loop_pass a inp).1.state.errors
        = a.state.errors ++ [iterationErrorText (a.state.iteration + 1) msg]
    ∧ (loop_pass a inp).1.state.status = a.state.status
    ∧ (loop_pass a inp).1.state.final_result = a.state.final_result
    ∧ (loop_pass a inp).2.1.countP isSetCompletedEv = 0 := by
  have hmain := loop_pass_main a inp h1 h2 h3
  rcases hsrc with hg | ⟨content, tools, hg, hc, ht, hd⟩
  · rw [hg, try_stage_iterErr] at hmain
    rw [hmain]
    refine ⟨rfl, ?_, ?_, ?_, ?_⟩
    · simp [AgentState.add_error, warn_stage_errors, warn_stage_iteration,
        AgentState.increment_iteration]
    · simp [AgentState.add_error, warn_stage_status, AgentState.increment_iteration]
    · simp [AgentState.add_error, warn_stage_final_result,
        AgentState.increment_iteration]
    · simp [List.countP_append, List.countP_cons, isSetCompletedEv,
        warn_stage_no_setCompleted]
  · rw [hg, hd, try_stage_dispatch_errored _ _ _ _ _ hc ht] at hmain
    rw [hmain]
    refine ⟨rfl, ?_, ?_, ?_, ?_⟩
    · simp [AgentState.add_error, AgentState.add_message, warn_stage_errors,
        warn_stage_iteration, AgentState.increment_iteration]
    · simp [AgentState.add_error, AgentState.add_message, warn_stage_status,
        AgentState.increment_iteration]
    · simp [AgentState.add_error, AgentState.add_message, warn_stage_final_result,
        AgentState.increment_iteration]
    · simp [List.countP_append, List.countP_cons, isSetCompletedEv,
        warn_stage_no_setCompleted]

/-- Witness for C2 (amended) at both error sources: a RuntimeError at the
model call, and one raised inside the tool-dispatch unit. -/
theorem C2_recoverable_error_witness :
    ((loop_pass autonomousAgent errInput).2.2 = PassOutcome.next
      ∧ (loop_pass autonomousAgent errInput).1.state.errors
          = ["Error in iteration 1: boom"])
    ∧ ((loop_pass interactiveAgent dispatchErrInput).2.2 = PassOutcome.next
      ∧ (loop_pass interactiveAgent dispatchErrInput).1.state.errors
          = ["Error in iteration 1: tool blew up"]) := by
  have hgen := C2_recoverable_error autonomousAgent errInput "boom"
    (by decide) (by decide) (by decide) (Or.inl rfl)
  have hdisp := C2_recoverable_error interactiveAgent dispatchErrInput "tool blew up"
    (by decide) (by decide) (by decide)
    (Or.inr ⟨some "running tools", ["run_scan"], rfl, by decide, by decide, rfl⟩)
  exact ⟨⟨hgen.1, by rw [hgen.2.1]; decide⟩, ⟨hdisp.1, by rw [hdisp.2.1]; decide⟩⟩

/-- Counterexample to Claim C2 as stated: a non-interactive agent hit by a
RuntimeError during iteration 1 records the error but neither marks the run
failed nor propagates the exception — the loop pass just continues. -/
theorem C2_counterexample :
    (loop_pass autonomousAgent errInput).2.2 = PassOutcome.next
    ∧ (loop_pass autonomousAgent errInput).1.state.final_result = none
    ∧ (loop_pass autonomousAgent errInput).1.state.status = Status.Running
    ∧ (loop_pass autonomousAgent errInput).1.state.errors
        = ["Error in iteration 1: boom"] := by decide

theorem should_stop_false_ne_completed (s : AgentState) (h : s.should_stop = false) :
    s.status ≠ Status.Completed := by
  simp [AgentState.should_stop] at h
  exact h.1

/-- Claim C3: for every tool-dispatch batch cooperatively cancelled in
flight, the wholesale history replacement does not occur — the stored history
is exactly the pre-dispatch one (plus, in interactive mode, the cancellation
notice) with no tool-result message —, exactly one cancellation record is
appended to the error log, and the cancellation is re-raised: propagated in
non-interactive mode, absorbed into the waiting state in interactive mode. -/
theorem C3_cancellation (a : Agent) (inp : PassInput) (content : Option String)
    (tools : List Action)
    (h1 : a.state.is_waiting_for_input = false) (h2 : a.state.should_stop = false)
    (h3 : a.state.llm_failed = false)
    (hg : inp.gen = GenOutcome.ok content tools)
    (hc : stripped_isEmpty (content.getD "") = false) (ht : tools ≠ [])
    (hd : inp.disp = DispatchOutcome.cancelled) :
    (loop_pass a inp).1.state.errors = a.state.errors ++ [cancelledErrorText]
    ∧ (a.non_interactive = true →
        (loop_pass a inp).2.2 = PassOutcome.raised StepExc.cancelledError
        ∧ (loop_pass a inp).1.state.messages
            = ((warn_stage a.state.increment_iteration).1.add_message "assistant"
                (content.getD "")).messages)
    ∧ (a.non_interactive = false →
        (loop_pass a inp).2.2 = PassOutcome.next
        ∧ (loop_pass a inp).1.state.status = Status.WaitingForInput
        ∧ (loop_pass a inp).1.state.messages
            = ((warn_stage a.state.increment_iteration).1.add_message "assistant"
                (content.getD "")).messages
              ++ [{ role := "assistant",
                    content := "Execution was cancelled. I\x27m now waiting for new instructions." }]) := by
  have hmain := loop_pass_main a inp h1 h2 h3
  rw [hg, hd, try_stage_cancelled _ _ _ _ hc ht] at hmain
  refine ⟨?_, ?_, ?_⟩
  · cases hni : a.non_interactive <;>
      rw [hmain] <;>
      simp [hni, AgentState.add_error, AgentState.add_message,
        enter_waiting_with_notice, AgentState.enter_waiting_state,
        warn_stage_errors, AgentState.increment_iteration]
  · intro hni
    rw [hmain]
    simp [hni, AgentState.add_error, AgentState.add_message]
  · intro hni
    rw [hmain]
    simp [hni, AgentState.add_error, AgentState.add_message,
      enter_waiting_with_notice, AgentState.enter_waiting_state]

/-- Witness for C3: an interactive agent cancelled during a one-invocation
batch exhibits exactly one cancellation record, a waiting transition, and no
committed tool result. -/
theorem C3_cancellation_witness :
    (loop_pass interactiveAgent cancelInput).1.state.errors = [cancelledErrorText]
    ∧ (loop_pass interactiveAgent cancelInput).2.2 = PassOutcome.next
    ∧ (loop_pass interactiveAgent cancelInput).1.state.status
        = Status.WaitingForInput := by
  have h := C3_cancellation interactiveAgent cancelInput (some "scanning the target")
    ["run_scan"] (by decide) (by decide) (by decide) rfl (by decide) (by decide) rfl
  exact ⟨by rw [h.1]; decide, (h.2.2 rfl).1, (h.2.2 rfl).2.1⟩

theorem process_iteration_status_result (s : AgentState) (gen : GenOutcome)
    (disp : DispatchOutcome) :
    ((process_iteration s gen disp).1.status = s.status
      ∧ (process_iteration s gen disp).1.final_result = s.final_result)
    ∨ ((process_iteration s gen disp).1.status = Status.Completed
      ∧ (process_iteration s gen disp).1.final_result.isSome = true) := by
  cases gen with
  | llmFail msg => left; simp [process_iteration]
  | iterErr msg => left; simp [process_iteration]
  | ok content tools =>
    by_cases hb : stripped_isEmpty (content.getD "")
    · left; simp [process_iteration, hb, AgentState.add_message]
    · by_cases htl : tools.isEmpty
      · left; simp [process_iteration, hb, htl, AgentState.add_message]
      · cases disp with
        | cancelled =>
          left
          simp [process_iteration, hb, htl, execute_actions, foldl_add_action,
            AgentState.add_message, AgentState.add_error]
        | errored msg =>
          left
          simp [process_iteration, hb, htl, execute_actions, foldl_add_action,
            AgentState.add_message]
        | done sf results =>
          cases sf with
          | false =>
            left
            simp [process_iteration, hb, htl, execute_actions, foldl_add_action,
              AgentState.add_message, AgentState.get_conversation_history]
          | true =>
            right
            simp [process_iteration, hb, htl, execute_actions, foldl_add_action,
              AgentState.add_message, AgentState.get_conversation_history,
              AgentState.set_completed]

theorem try_stage_completed_isSome (ni : Bool) (s : AgentState) (gen : GenOutcome)
    (disp : DispatchOutcome) (hs : s.status ≠ Status.Completed) :
    (try_stage ni s gen disp).1.status = Status.Completed →
      (try_stage ni s gen disp).1.final_result.isSome = true := by
  have hpr := process_iteration_status_result s gen disp
  unfold try_stage
  rcases hp : process_iteration s gen disp with ⟨s2, evs, r⟩
  rw [hp] at hpr
  dsimp only at hpr
  cases r with
  | ok sf =>
    cases sf with
    | false =>
      simp only [Bool.false_eq_true, if_false]
      intro hc
      rcases hpr with ⟨hst, hfr⟩ | ⟨hst, hfr⟩
      · rw [hst] at hc; exact absurd hc hs
      · exact hfr
    | true =>
      cases ni <;>
        simp_all [AgentState.set_completed, enter_waiting_with_notice,
          AgentState.enter_waiting_state, AgentState.add_message]
  | error e =>
    cases e with
    | cancelledError =>
      cases ni with
      | true =>
        simp only [if_true]
        intro hc
        rcases hpr with ⟨hst, hfr⟩ | ⟨hst, hfr⟩
        · rw [hst] at hc; exact absurd hc hs
        · exact hfr
      | false =>
        simp [enter_waiting_with_notice, AgentState.enter_waiting_state,
          AgentState.add_message]
    | llmRequestFailed msg =>
      cases ni with
      | true => simp [AgentState.set_completed, AgentState.add_error]
      | false => simp [AgentState.enter_waiting_state, AgentState.add_error]
    | stdError msg =>
      simp only [handle_iteration_error, Bool.not_true, Bool.false_eq_true,
        if_false]
      intro hc
      simp only [AgentState.add_error] at hc ⊢
      rcases hpr with ⟨hst, hfr⟩ | ⟨hst, hfr⟩
      · rw [hst] at hc; exact absurd hc hs
      · exact hfr

/-- Counterexample to Claim C1 as stated: when a tool batch signals finish in
interactive mode, the waiting transition leaves `final_result` set to the
success payload while the status is `WaitingForInput`, so
"`final_result` non-null iff `status == Completed`" fails on this reachable
state. -/
theorem C1_counterexample :
    (loop_pass interactiveAgent finishInput).1.state.final_result
        = some { success := true }
    ∧ (loop_pass interactiveAgent finishInput).1.state.status
        = Status.WaitingForInput
    ∧ Status.WaitingForInput ≠ Status.Completed := by decide

/-- Claim C1 as amended: `set_completed` is the only way `final_result`
becomes non-null and it sets `Completed` simultaneously, so every loop pass
preserves the forward direction of the invariant — `status == Completed`
implies `final_result` non-null.  The backward direction is not preserved:
the interactive finish path enters waiting while `final_result` stays set
(see the counterexample). -/
theorem C1_amended (a : Agent) (inp : PassInput)
    (h : a.state.status = Status.Completed → a.state.final_result.isSome = true) :
    (loop_pass a inp).1.state.status = Status.Completed →
      (loop_pass a inp).1.state.final_result.isSome = true := by
  by_cases h1 : a.state.is_waiting_for_input = true
  · rw [loop_pass_waiting a inp h1]
    cases htE : inp.timeoutElapsed
    · simpa [wait_for_input, htE] using h
    · simp [wait_for_input, htE, AgentState.resume_from_waiting,
        AgentState.add_message]
  · replace h1 : a.state.is_waiting_for_input = false := by simpa using h1
    by_cases h2 : a.state.should_stop = true
    · rw [loop_pass_stop a inp h1 h2]
      cases hni : a.non_interactive
      · simp [enter_waiting_with_notice, AgentState.enter_waiting_state,
          AgentState.add_message]
      · simpa using h
    · replace h2 : a.state.should_stop = false := by simpa using h2
      by_cases h3 : a.state.llm_failed = true
      · rw [loop_pass_llm_failed a inp h1 h2 h3]
        cases htE : inp.timeoutElapsed
        · simpa [wait_for_input, htE] using h
        · simp [wait_for_input, htE, AgentState.resume_from_waiting,
            AgentState.add_message]
      · replace h3 : a.state.llm_failed = false := by simpa using h3
        rw [loop_pass_main a inp h1 h2 h3]
        dsimp only
        apply try_stage_completed_isSome
        rw [warn_stage_status]
        simp only [AgentState.increment_iteration]
        exact should_stop_false_ne_completed a.state h2

/-- Witness for C1 (amended) at a concrete pass that really completes: the
non-interactive finish pass ends Completed with a non-null result. -/
theorem C1_amended_witness :
    (loop_pass autonomousAgent finishInput).1.state.final_result.isSome = true :=
  C1_amended autonomousAgent finishInput (by decide) (by decide)

/-- Counterexample to Claim C6 as stated: on the non-interactive path where a
tool batch signals finish, `set_completed` is invoked twice in the same pass
(once inside the dispatch handler, once in the loop), not exactly once. -/
theorem C6_counterexample :
    (loop_pass autonomousAgent finishInput).2.1.countP isSetCompletedEv = 2
    ∧ (loop_pass autonomousAgent finishInput).2.1.countP isSetCompletedEv ≠ 1 := by
  decide

/-- Claim C6 as amended: `final_result` is set only by `set_completed`, which
always establishes `Completed` simultaneously; but on the path where a tool
batch signals finish in non-interactive mode the controller performs exactly
two `set_completed` calls, both with the same success payload, so the
resulting `final_result` equals the payload of a single set. -/
theorem C6_finish_double_set (a : Agent) (inp : PassInput) (content : Option String)
    (tools : List Action) (results : List Message)
    (h1 : a.state.is_waiting_for_input = false) (h2 : a.state.should_stop = false)
    (h3 : a.state.llm_failed = false) (hni : a.non_interactive = true)
    (hg : inp.gen = GenOutcome.ok content tools)
    (hc : stripped_isEmpty (content.getD "") = false) (ht : tools ≠ [])
    (hd : inp.disp = DispatchOutcome.done true results) :
    (loop_pass a inp).2.1.countP isSetCompletedEv = 2
    ∧ ((loop_pass a inp).2.1.filter isSetCompletedEv)
        = [Event.setCompletedEv { success := true },
           Event.setCompletedEv { success := true }]
    ∧ (loop_pass a inp).1.state.final_result = some { success := true }
    ∧ (loop_pass a inp).1.state.status = Status.Completed
    ∧ (loop_pass a inp).2.2 = PassOutcome.ret (some { success := true }) := by
  have hmain := loop_pass_main a inp h1 h2 h3
  rw [hg, hd, try_stage_dispatch_done _ _ _ _ _ _ hc ht] at hmain
  simp only [if_true, hni] at hmain
  rw [hmain]
  have hwf : ((warn_stage a.state.increment_iteration).2.filter isSetCompletedEv) = [] := by
    have hcount := warn_stage_no_setCompleted a.state.increment_iteration
    rwa [List.countP_eq_length_filter, List.length_eq_zero] at hcount
  refine ⟨?_, ?_, ?_, ?_, ?_⟩
  · simp [List.countP_append, List.countP_cons, isSetCompletedEv,
      warn_stage_no_setCompleted]
  · simp [List.filter_append, hwf, isSetCompletedEv]
  · simp [AgentState.set_completed]
  · simp [AgentState.set_completed]
  · simp [AgentState.set_completed]

/-- Witness for C6 (amended) at the concrete finish scenario. -/
theorem C6_finish_double_set_witness :
    (loop_pass autonomousAgent finishInput).2.1.countP isSetCompletedEv = 2
    ∧ (loop_pass autonomousAgent finishInput).1.state.final_result
        = some { success := true } := by
  have h := C6_finish_double_set autonomousAgent finishInput (some "finishing now")
    ["finish_scan"] [{ role := "tool", content := "scan stored" }]
    (by decide) (by decide) (by decide) (by decide) rfl (by decide) (by decide) rfl
  exact ⟨h.1, h.2.2.1⟩

/-- Counterexample to Claim C7 as stated: initializing with a state record
that already contains the task as its first (and only) user message appends a
duplicate task message. -/
theorem C7_counterexample :
    (initialize_sandbox_and_state resumedAgent false sampleSandbox "t").state.messages
      = [{ role := "user", content := "t" }, { role := "user", content := "t" }] := by
  decide

/-- Claim C7 as amended: bootstrap sets the task *field* only when it is not
already set, but appends the task as a user message unconditionally on every
initialization — so re-initializing with a state that already recorded the
task appends a duplicate. -/
theorem C7_task_append (a : Agent) (sandbox_mode : Bool) (si : SandboxInfo)
    (task : String) :
    (initialize_sandbox_and_state a sandbox_mode si task).state.messages
      = a.state.messages ++ [{ role := "user", content := task }]
    ∧ (a.state.task ≠ "" →
        (initialize_sandbox_and_state a sandbox_mode si task).state.task
          = a.state.task) := by
  simp only [initialize_sandbox_and_state]
  constructor
  · (repeat' split) <;> simp_all [AgentState.add_message]
  · intro htask
    (repeat' split) <;> simp_all [AgentState.add_message]

/-- Witness for C7 (amended): initialization appends the task message and
keeps the already-set task field. -/
theorem C7_task_append_witness :
    (initialize_sandbox_and_state resumedAgent true sampleSandbox "t2").state.messages
      = resumedAgent.state.messages ++ [{ role := "user", content := "t2" }]
    ∧ (initialize_sandbox_and_state resumedAgent true sampleSandbox "t2").state.task
        = "t" := by
  have h := C7_task_append resumedAgent true sampleSandbox "t2"
  exact ⟨h.1, by rw [h.2 (by decide)]; rfl⟩

/-- Claim C9: the three sandbox handles are either all unset or all set;
initialization provisions them together, only when no handle is present and
the sandbox-mode toggle is off, and a later initialization never overwrites a
pre-existing handle. -/
theorem C9_sandbox_handles (a : Agent) (sandbox_mode : Bool) (si : SandboxInfo)
    (task : String) (h : handles_consistent a.state) :
    handles_consistent (initialize_sandbox_and_state a sandbox_mode si task).state
    ∧ (sandbox_mode = false → a.state.sandbox_id = none →
        (initialize_sandbox_and_state a sandbox_mode si task).state.sandbox_id
            = some si.workspace_id
        ∧ (initialize_sandbox_and_state a sandbox_mode si task).state.sandbox_token
            = some si.auth_token
        ∧ (initialize_sandbox_and_state a sandbox_mode si task).state.sandbox_info
            = some si)
    ∧ (a.state.sandbox_id.isSome = true →
        (initialize_sandbox_and_state a sandbox_mode si task).state.sandbox_id
            = a.state.sandbox_id
        ∧ (initialize_sandbox_and_state a sandbox_mode si task).state.sandbox_token
            = a.state.sandbox_token
        ∧ (initialize_sandbox_and_state a sandbox_mode si task).state.sandbox_info
            = a.state.sandbox_info)
    ∧ (sandbox_mode = true →
        (initialize_sandbox_and_state a sandbox_mode si task).state.sandbox_id
            = a.state.sandbox_id
        ∧ (initialize_sandbox_and_state a sandbox_mode si task).state.sandbox_token
            = a.state.sandbox_token
        ∧ (initialize_sandbox_and_state a sandbox_mode si task).state.sandbox_info
            = a.state.sandbox_info) := by
  have hsi : ({ workspace_id := si.workspace_id, auth_token := si.auth_token,
                agent_id := si.agent_id } : SandboxInfo) = si := rfl
  simp only [initialize_sandbox_and_state]
  by_cases hm : sandbox_mode <;> by_cases hid : a.state.sandbox_id = none <;>
    by_cases hag : si.agent_id.isSome <;>
    (repeat' split) <;>
    simp_all [AgentState.add_message, handles_consistent, handles_all_set,
      handles_all_unset]

/-- Witness for C9 at a fresh agent with the toggle off: all three handles
are provisioned together. -/
theorem C9_sandbox_handles_witness :
    handles_consistent
      (initialize_sandbox_and_state interactiveAgent false sampleSandbox "t").state
    ∧ (initialize_sandbox_and_state interactiveAgent false sampleSandbox "t").state.sandbox_id
        = some "ws-1"
    ∧ (initialize_sandbox_and_state interactiveAgent false sampleSandbox "t").state.sandbox_token
        = some "tok-1"
    ∧ (initialize_sandbox_and_state interactiveAgent false sampleSandbox "t").state.sandbox_info
        = some sampleSandbox := by
  have h := C9_sandbox_handles interactiveAgent false sampleSandbox "t"
    (by decide)
  exact ⟨h.1, (h.2.1 rfl rfl).1, (h.2.1 rfl rfl).2.1, (h.2.1 rfl rfl).2.2⟩

/-- Claim C10: construction with a pre-existing state record adopts it
unchanged (a config `max_iterations` lands only on the controller object),
and the loop pass is insensitive to the controller attribute — the warning
thresholds read the state record alone. -/
theorem C10_construction_frame :
    (∀ (name : String) (config : AgentConfig) (s : AgentState) (c : LLMConfig),
      config.state = some s → config.llm_config = some c →
      BaseAgent_init name config
        = Except.ok { local_sources := config.local_sources,
                      non_interactive := config.non_interactive,
                      max_iterations := config.max_iterations.getD baseAgentMaxIterations,
                      state := s })
    ∧ (∀ (a : Agent) (inp : PassInput) (m : Nat),
        (loop_pass { a with max_iterations := m } inp).1.state
            = (loop_pass a inp).1.state
        ∧ (loop_pass { a with max_iterations := m } inp).2
            = (loop_pass a inp).2) := by
  constructor
  · intro name config s c hs hc
    simp [BaseAgent_init, hs, hc]
  · intro a inp m
    refine ⟨?_, ?_⟩ <;> simp only [loop_pass] <;> split_ifs <;> rfl

/-- Witness for C10: a config carrying both a restored state and
`max_iterations = 7` leaves the state record intact, and a controller
attribute of 7 versus 300 does not change the pass. -/
theorem C10_construction_frame_witness :
    BaseAgent_init "TestAgent"
        { local_sources := [], non_interactive := true, max_iterations := some 7,
          llm_config := some {}, state := some resumedState }
      = Except.ok { local_sources := [], non_interactive := true,
                    max_iterations := 7, state := resumedState }
    ∧ (loop_pass { resumedAgent with max_iterations := 7 } errInput).1.state
        = (loop_pass resumedAgent errInput).1.state := by
  have h1 := C10_construction_frame.1 "TestAgent"
    { local_sources := [], non_interactive := true, max_iterations := some 7,
      llm_config := some {}, state := some resumedState } resumedState {} rfl rfl
  have h2 := C10_construction_frame.2 resumedAgent errInput 7
  exact ⟨by rw [h1]; rfl, h2.1⟩

end Strix
